import Mathlib

/-!
Verification development for the espforge backend (`src/backend/server.py`).

Two subsystems are embedded shallowly:

1. The stage pipeline: `approve_stage`, `generate_stage_content`, and the
   context construction of `generate_llm_response`.
2. The wiring-diagram allocator: `generate_ascii_wiring_diagram` together
   with the static catalog (`HARDWARE_LIBRARY`) and pin map
   (`ESP32_PIN_MAP`) it reads.

Python dictionaries are modelled as association lists with in-place update
semantics (`dictSet`), Python string truthiness as a non-emptiness test,
and the database round trip of each endpoint as a pure function from the
loaded project value to the stored project value.
-/

namespace EspForge

/-- Whether the pattern occurs at the head of the character list. -/
def matchesAt : List Char → List Char → Bool
  | [], _ => true
  | _ :: _, [] => false
  | a :: as, b :: bs => a == b && matchesAt as bs

/-- Whether the pattern occurs anywhere in the character list. -/
def hasSub (pat : List Char) : List Char → Bool
  | [] => matchesAt pat []
  | c :: rest => matchesAt pat (c :: rest) || hasSub pat rest

/-- Python substring test `pat in s`. -/
def strHas (s pat : String) : Bool :=
  hasSub pat.data s.data

/-- Python `s.upper()`: character-wise ASCII uppercasing. -/
def strUpper (s : String) : String :=
  String.mk (s.data.map Char.toUpper)

/-- Python `s.lower()`: character-wise ASCII lowercasing. -/
def strLower (s : String) : String :=
  String.mk (s.data.map Char.toLower)

/-- Python format `f"{s:20}"`: left-justify to width 20 with spaces. -/
def padTo20 (s : String) : String :=
  s ++ String.mk (List.replicate (20 - s.length) ' ')

/-- Enumeration `ProjectStage` from `server.py`. -/
inductive ProjectStage where
  | idea
  | requirements
  | hardware
  | architecture
  | code
  | explanation
  | iteration
deriving DecidableEq

/-- String value of a `ProjectStage`, as the Python `str` enum mixes in. -/
def ProjectStage.value : ProjectStage → String
  | .idea => "idea"
  | .requirements => "requirements"
  | .hardware => "hardware"
  | .architecture => "architecture"
  | .code => "code"
  | .explanation => "explanation"
  | .iteration => "iteration"

/-- Model `StageData` (pydantic): per-stage record. -/
structure StageData where
  content : Option String
  generated_at : Option String
  user_approved : Bool
  notes : Option String
deriving DecidableEq

/-- One turn of `conversation_history`: a dict with role, content and stage keys. -/
structure ConvTurn where
  role : String
  content : String
  stage : String
deriving DecidableEq

/-- Model of the `Project` document. The `stages` dict is modelled as a total
map from stage keys to records; a key that is absent in the stored dict reads
as the all-empty record, matching the `.get(key, {})` accesses in the code. -/
structure Project where
  id : String
  name : String
  idea : String
  description : Option String
  target_hardware : String
  status : String
  current_stage : String
  stages : String → StageData
  selected_components : List String
  conversation_history : List ConvTurn
  created_at : String
  updated_at : String

/-- The fixed stage order used by `approve_stage` (`stage_order` local). -/
def stage_order : List String :=
  ["idea", "requirements", "hardware", "architecture", "code", "explanation", "iteration"]

/-- Embedding of the `approve_stage` endpoint body: updates the named stage
record, computes the optional next stage, and conditionally advances
`current_stage`. The returned pair is (stored project, returned next_stage).
`now` stands for the timestamp written to `updated_at`. -/
def approve_stage (p : Project) (stage : ProjectStage) (approved : Bool)
    (notes : Option String) (now : String) : Project × Option String :=
  let stage_data := p.stages stage.value
  let stage_data := { stage_data with user_approved := approved }
  let stage_data :=
    match notes with
    | some s => if s ≠ "" then { stage_data with notes := some s } else stage_data
    | none => stage_data
  let stages' := fun k => if k = stage.value then stage_data else p.stages k
  let next_stage : Option String :=
    if approved then
      let current_idx := stage_order.findIdx (fun x => x == stage.value)
      if current_idx < stage_order.length - 1 then stage_order[current_idx + 1]? else none
    else none
  let p' := { p with stages := stages', updated_at := now }
  let p' :=
    match next_stage with
    | some s => if s ≠ "" then { p' with current_stage := s } else p'
    | none => p'
  (p', next_stage)

/-- Successor of a stage in the fixed order; `iteration` is mapped to itself
and is never used under that argument. -/
def stageSuccessor : ProjectStage → ProjectStage
  | .idea => .requirements
  | .requirements => .hardware
  | .hardware => .architecture
  | .architecture => .code
  | .code => .explanation
  | .explanation => .iteration
  | .iteration => .iteration

/-- Model of a FastAPI `HTTPException` payload. -/
structure HTTPErr where
  status_code : Nat
  detail : String
deriving DecidableEq

/-- The `str()` form of a starlette `HTTPException`: "status_code: detail". -/
def httpErrStr (e : HTTPErr) : String :=
  toString e.status_code ++ ": " ++ e.detail

/-- Embedding of the `generate_stage_content` endpoint body after the project
has been loaded. `llm_result` stands for the outcome of the awaited
`generate_llm_response` call: `Except.ok content` on success and
`Except.error e` when the provider call raised an `HTTPException` (missing
key, authentication failure, non-success response). The first component of
the result is the project as stored after the call: on failure the database
update is never reached, so the stored project is the input project. On
failure the endpoint re-raises `HTTPException(500, "Generation failed: " + str(e))`. -/
def generate_stage_content (p : Project) (stage : ProjectStage)
    (user_message : Option String) (now : String)
    (llm_result : Except HTTPErr String) : Project × Except HTTPErr String :=
  match llm_result with
  | .error e => (p, .error ⟨500, "Generation failed: " ++ httpErrStr e⟩)
  | .ok content =>
    let stages' := fun k =>
      if k = stage.value then (⟨some content, some now, false, none⟩ : StageData)
      else p.stages k
    let conversation := p.conversation_history
    let conversation :=
      match user_message with
      | some m => if m ≠ "" then conversation ++ [⟨"user", m, stage.value⟩] else conversation
      | none => conversation
    let conversation := conversation ++ [⟨"assistant", content, stage.value⟩]
    ({ p with stages := stages', conversation_history := conversation, updated_at := now },
     .ok content)

/-- The `stages_order` list local to `generate_llm_response`. Note that it
has only six entries: `"iteration"` is absent. -/
def stages_order : List String :=
  ["idea", "requirements", "hardware", "architecture", "code", "explanation"]

/-- Stage-content context parts appended by the loop in
`generate_llm_response`: previous stages (by index in `stages_order`, with
fallback index 0 when the stage is not in that list) whose record has truthy
content. -/
def context_stage_parts (project : Project) (stage : ProjectStage) : List String :=
  let stage_idx :=
    if stages_order.contains stage.value then
      stages_order.findIdx (fun x => x == stage.value)
    else 0
  (stages_order.take stage_idx).filterMap (fun prev_stage =>
    match (project.stages prev_stage).content with
    | some c => if c ≠ "" then some ("\n=== " ++ strUpper prev_stage ++ " ===\n" ++ c) else none
    | none => none)

/-- The fixed, stage-independent context parts built by
`generate_llm_response` before the stage loop. -/
def base_context_parts (project : Project) : List String :=
  let context_parts := ["Project: " ++ project.name, "Idea: " ++ project.idea]
  let context_parts :=
    match project.description with
    | some d => if d ≠ "" then context_parts ++ ["Description: " ++ d] else context_parts
    | none => context_parts
  context_parts ++ ["Target Hardware: " ++ project.target_hardware]

/-- Full context-part list assembled by `generate_llm_response`. -/
def build_context_parts (project : Project) (stage : ProjectStage) : List String :=
  base_context_parts project ++ context_stage_parts project stage

/-- The full seven-stage order named by the specification. -/
def full_stage_order : List String :=
  ["idea", "requirements", "hardware", "architecture", "code", "explanation", "iteration"]

/-- Modelled from the spec's words, for comparison with `context_stage_parts`:
the stages strictly before the given stage in the fixed seven-stage order
that have non-empty content, in that order. -/
def spec_context_stage_parts (project : Project) (stage : ProjectStage) : List String :=
  (full_stage_order.takeWhile (fun x => x ≠ stage.value)).filterMap (fun prev_stage =>
    match (project.stages prev_stage).content with
    | some c => if c ≠ "" then some ("\n=== " ++ strUpper prev_stage ++ " ===\n" ++ c) else none
    | none => none)

/-! Association-list model of Python dicts: assignment updates an existing
key in place (keeping its position) and otherwise appends. -/

/-- Python dict assignment `d[k] = v`. -/
def dictSet {α : Type} (d : List (String × α)) (k : String) (v : α) : List (String × α) :=
  if d.any (fun p => p.1 == k) then
    d.map (fun p => if p.1 == k then (k, v) else p)
  else d ++ [(k, v)]

/-- Python dict lookup `d.get(k)`. -/
def dictFind {α : Type} (d : List (String × α)) (k : String) : Option α :=
  (d.find? (fun p => p.1 == k)).map (fun p => p.2)

/-- Python key-membership test `k in d`. -/
def dictHasKey {α : Type} (d : List (String × α)) (k : String) : Bool :=
  d.any (fun p => p.1 == k)

/-- Python `d.values()`. -/
def dictValues {α : Type} (d : List (String × α)) : List α :=
  d.map (fun p => p.2)

/-! Entries of `ESP32_PIN_MAP` that the allocator reads. -/

def ESP32_PIN_MAP_i2c_SDA : String := "GPIO21"
def ESP32_PIN_MAP_i2c_SCL : String := "GPIO22"
def ESP32_PIN_MAP_spi_vspi_MOSI : String := "GPIO23"
def ESP32_PIN_MAP_spi_vspi_MISO : String := "GPIO19"
def ESP32_PIN_MAP_spi_vspi_SCK : String := "GPIO18"
def ESP32_PIN_MAP_spi_vspi_CS : String := "GPIO5"
def ESP32_PIN_MAP_adc1 : List String :=
  ["GPIO32", "GPIO33", "GPIO34", "GPIO35", "GPIO36", "GPIO39"]
def ESP32_PIN_MAP_digital_recommended : List String :=
  ["GPIO4", "GPIO5", "GPIO16", "GPIO17", "GPIO18", "GPIO19",
   "GPIO23", "GPIO25", "GPIO26", "GPIO27", "GPIO32", "GPIO33"]

/-- The local `gpio_pool = ESP32_PIN_MAP["digital_recommended"].copy()`. -/
def gpio_pool : List String := ESP32_PIN_MAP_digital_recommended

/-- Catalog entry from `HARDWARE_LIBRARY` with the fields the allocator
reads: id, name, interface, the ordered wiring dict, and notes. -/
structure CatalogComponent where
  id : String
  name : String
  interface : String
  wiring : List (String × String)
  notes : String
deriving DecidableEq

/-- The `sensors` category of `HARDWARE_LIBRARY`. -/
def HARDWARE_LIBRARY_sensors : List CatalogComponent :=
  [⟨"dht22", "DHT22", "Digital (OneWire-like)",
    [("VCC", "3.3V or 5V"), ("GND", "GND"), ("DATA", "GPIO (with 10K pull-up)")],
    "Use 10K pull-up resistor between DATA and VCC"⟩,
   ⟨"dht11", "DHT11", "Digital",
    [("VCC", "3.3V or 5V"), ("GND", "GND"), ("DATA", "GPIO (with 10K pull-up)")],
    "Lower precision than DHT22, but cheaper"⟩,
   ⟨"bme280", "BME280", "I2C / SPI",
    [("VCC", "3.3V"), ("GND", "GND"), ("SDA", "GPIO21"), ("SCL", "GPIO22")],
    "Default I2C address: 0x76 or 0x77"⟩,
   ⟨"ds18b20", "DS18B20", "OneWire",
    [("VCC", "3.3V or 5V"), ("GND", "GND"), ("DATA", "GPIO (with 4.7K pull-up)")],
    "Can chain multiple sensors on same bus"⟩,
   ⟨"soil_moisture", "Capacitive Soil Moisture Sensor", "Analog",
    [("VCC", "3.3V"), ("GND", "GND"), ("AOUT", "GPIO32-39 (ADC pins)")],
    "Capacitive type is more durable than resistive. Use ADC1 pins."⟩,
   ⟨"pir_motion", "HC-SR501 PIR Motion Sensor", "Digital",
    [("VCC", "5V"), ("GND", "GND"), ("OUT", "Any GPIO")],
    "Adjustable sensitivity and delay. Output is HIGH when motion detected."⟩,
   ⟨"ultrasonic", "HC-SR04 Ultrasonic Sensor", "Digital (Trigger/Echo)",
    [("VCC", "5V"), ("GND", "GND"), ("TRIG", "Any GPIO"),
     ("ECHO", "Any GPIO (use voltage divider for 3.3V)")],
    "Range: 2cm-400cm. Echo pin outputs 5V, use voltage divider."⟩]

/-- The `displays` category of `HARDWARE_LIBRARY`. -/
def HARDWARE_LIBRARY_displays : List CatalogComponent :=
  [⟨"ssd1306", "SSD1306 OLED 0.96\"", "I2C",
    [("VCC", "3.3V"), ("GND", "GND"), ("SDA", "GPIO21"), ("SCL", "GPIO22")],
    "128x64 pixels, I2C address: 0x3C or 0x3D"⟩,
   ⟨"lcd1602_i2c", "LCD 16x2 with I2C", "I2C",
    [("VCC", "5V"), ("GND", "GND"), ("SDA", "GPIO21"), ("SCL", "GPIO22")],
    "I2C backpack simplifies wiring. Address usually 0x27 or 0x3F"⟩,
   ⟨"tft_st7789", "TFT Display ST7789 1.3\"", "SPI",
    [("VCC", "3.3V"), ("GND", "GND"), ("SCL", "GPIO18"), ("SDA", "GPIO23"),
     ("RES", "GPIO4"), ("DC", "GPIO2"), ("CS", "GPIO15")],
    "240x240 pixels, full color. Fast SPI interface."⟩]

/-- The `actuators` category of `HARDWARE_LIBRARY`. -/
def HARDWARE_LIBRARY_actuators : List CatalogComponent :=
  [⟨"relay", "Relay Module (1 Channel)", "Digital GPIO",
    [("VCC", "5V"), ("GND", "GND"), ("IN", "Any GPIO")],
    "Use optocoupled relay for safety. Active LOW common."⟩,
   ⟨"relay_4ch", "Relay Module (4 Channel)", "Digital GPIO",
    [("VCC", "5V"), ("GND", "GND"), ("IN1-IN4", "Any GPIO")],
    "4 independent relays. Optocoupled recommended."⟩,
   ⟨"servo_sg90", "SG90 Micro Servo", "PWM",
    [("VCC", "5V (external recommended)"), ("GND", "GND"), ("Signal", "Any PWM GPIO")],
    "180° rotation. Use external 5V supply for multiple servos."⟩,
   ⟨"water_pump", "Mini Water Pump DC 3-6V", "Via Relay/MOSFET",
    [("VCC", "3-6V (via relay)"), ("GND", "GND")],
    "Control via relay or MOSFET. Add flyback diode for protection."⟩,
   ⟨"buzzer", "Active Buzzer Module", "Digital GPIO",
    [("VCC", "3.3V or 5V"), ("GND", "GND"), ("I/O", "Any GPIO")],
    "Active buzzer - just apply voltage. Passive needs PWM for tone."⟩,
   ⟨"led_strip", "WS2812B LED Strip (NeoPixel)", "Digital (Data)",
    [("VCC", "5V (external supply for long strips)"), ("GND", "GND"),
     ("DIN", "Any GPIO (through 330Ω resistor)")],
    "Addressable RGB. Use capacitor (1000µF) for power supply."⟩]

/-- The `boards` category of `HARDWARE_LIBRARY`. -/
def HARDWARE_LIBRARY_boards : List CatalogComponent :=
  [⟨"esp32_devkit", "ESP32 DevKit V1", "USB", [],
    "Most common ESP32 board. 30 or 38 pin versions available."⟩,
   ⟨"breadboard", "Breadboard 830 Points", "N/A", [],
    "Standard solderless breadboard for prototyping."⟩,
   ⟨"jumper_wires", "Jumper Wires Kit (M-M, M-F, F-F)", "N/A", [],
    "Essential for breadboard prototyping."⟩,
   ⟨"resistor_kit", "Resistor Kit (Various Values)", "N/A", [],
    "Common values: 220Ω, 330Ω, 1K, 4.7K, 10K needed for pull-ups/LEDs."⟩]

/-- Flattening of `HARDWARE_LIBRARY.values()` in category insertion order,
as built at the top of `generate_ascii_wiring_diagram`. -/
def allComponents : List CatalogComponent :=
  HARDWARE_LIBRARY_sensors ++ HARDWARE_LIBRARY_displays
    ++ HARDWARE_LIBRARY_actuators ++ HARDWARE_LIBRARY_boards

/-- The ids of all catalog components. -/
def allComponentIds : List String := allComponents.map (fun c => c.id)

/-- Mutable state threaded through the allocation loops. -/
structure AllocState where
  used_pins : List (String × String)
  warnings : List String
  pin_assignments : List (String × List (String × String))
  diagram_lines : List String
  next_gpio_idx : Nat
deriving DecidableEq

/-- The ADC scan `for adc_pin in ESP32_PIN_MAP["adc1"]: if adc_pin not in
used_pins: ... break`: first pool entry not present as a key of the
used-pins map. -/
def findAdcPin : List String → List (String × String) → Option String
  | [], _ => none
  | adc_pin :: rest, used_pins =>
    if dictHasKey used_pins adc_pin then findAdcPin rest used_pins else some adc_pin

/-- The generic-digital scan loop `while next_gpio_idx < len(gpio_pool): ...`.
The first argument is the remaining pool suffix `gpio_pool.drop next_gpio_idx`;
the second is the current cursor, returned updated alongside the found pin.
Note the loop tests each candidate against the value set of the used-pins map. -/
def scanPool : List String → Nat → List String → Option String × Nat
  | [], idx, _ => (none, idx)
  | candidate :: rest, idx, used_values =>
    if used_values.contains candidate then scanPool rest (idx + 1) used_values
    else (some candidate, idx + 1)

/-- Modelled from the claim's words, for comparison with `scanPool`: the same
scan with the availability test dropped, so the next pool entry is always
claimed. -/
def scanPoolNoSkip : List String → Nat → Option String × Nat
  | [], idx => (none, idx)
  | candidate :: _, idx => (some candidate, idx + 1)

/-- The branch cascade of the pin-role loop body that resolves a role name to
a physical pin, updating warnings and the generic-pool cursor where those
branches do so. Returns the resolved pin and the updated state. The `scanned`
argument is the precomputed result of the generic-digital scan loop, consumed
only by the generic-digital branch (the scan is pure, so precomputing it is
observationally identical to running the loop inside the branch). -/
def resolve_assigned_pin_core (comp_name : String) (st : AllocState)
    (pin_name pin_desc : String) (scanned : Option String × Nat) : String × AllocState :=
  let pn := strUpper pin_name
  if (["VCC", "VIN"] : List String).contains pn then
    if strHas pin_desc "3.3" then ("3.3V", st) else ("5V (VIN)", st)
  else if pn == "GND" then ("GND", st)
  else if (["SDA", "SDL"] : List String).contains pn then (ESP32_PIN_MAP_i2c_SDA, st)
  else if pn == "SCL" then (ESP32_PIN_MAP_i2c_SCL, st)
  else if (["MOSI", "SDI", "DIN"] : List String).contains pn then (ESP32_PIN_MAP_spi_vspi_MOSI, st)
  else if (["MISO", "SDO", "DOUT"] : List String).contains pn then (ESP32_PIN_MAP_spi_vspi_MISO, st)
  else if (["SCK", "CLK", "SCLK"] : List String).contains pn then (ESP32_PIN_MAP_spi_vspi_SCK, st)
  else if pn == "CS" then (ESP32_PIN_MAP_spi_vspi_CS, st)
  else if (["AOUT", "AO", "ANALOG"] : List String).contains pn then
    match findAdcPin ESP32_PIN_MAP_adc1 st.used_pins with
    | some adc_pin => (adc_pin, st)
    | none =>
      ("GPIO34 (ADC)",
       { st with warnings := st.warnings ++ [comp_name ++ ": ADC pins limited, may conflict"] })
  else if (["DATA", "IN", "OUT", "SIGNAL", "DQ", "IO", "IN1", "IN2", "IN3", "IN4"] : List String).contains pn then
    match scanned with
    | (some candidate, idx') => (candidate, { st with next_gpio_idx := idx' })
    | (none, idx') =>
      ("GPIO" ++ toString (4 + idx'),
       { st with next_gpio_idx := idx',
                 warnings := st.warnings ++ [comp_name ++ ": Running low on recommended GPIOs"] })
  else if (["DC", "RS"] : List String).contains pn then ("GPIO2", st)
  else if (["RES", "RST", "RESET"] : List String).contains pn then ("GPIO4", st)
  else (pin_desc, st)

/-- The pin-role resolve step of the source: the branch cascade with the
generic-digital scan loop over the remaining pool. -/
def resolve_assigned_pin (comp_name : String) (st : AllocState)
    (pin_name pin_desc : String) : String × AllocState :=
  resolve_assigned_pin_core comp_name st pin_name pin_desc
    (scanPool (gpio_pool.drop st.next_gpio_idx) st.next_gpio_idx (dictValues st.used_pins))

/-- Variant of `resolve_assigned_pin` using `scanPoolNoSkip`; identical in
every other respect. Used to state that the availability test never skips. -/
def resolve_assigned_pin_noskip (comp_name : String) (st : AllocState)
    (pin_name pin_desc : String) : String × AllocState :=
  resolve_assigned_pin_core comp_name st pin_name pin_desc
    (scanPoolNoSkip (gpio_pool.drop st.next_gpio_idx) st.next_gpio_idx)

/-- The conflict check and used-pins update at the end of the pin-role loop
body: warn when a non-power pin is re-claimed by a different component, then
record the new owner (last writer wins). -/
def conflictCheck (used_pins : List (String × String)) (warnings : List String)
    (comp_id comp_name assigned_pin : String) :
    List (String × String) × List String :=
  if assigned_pin ≠ "" ∧ assigned_pin ∉ (["GND", "3.3V", "5V (VIN)"] : List String) then
    let warnings :=
      match dictFind used_pins assigned_pin with
      | some owner =>
        if owner ≠ comp_id then
          warnings ++ ["PIN CONFLICT: " ++ assigned_pin ++ " used by both "
            ++ owner ++ " and " ++ comp_name]
        else warnings
      | none => warnings
    (dictSet used_pins assigned_pin comp_id, warnings)
  else (used_pins, warnings)

/-- Shared tail of the pin-role loop body: conflict check, used-pins update
and diagram line. Takes the output of a resolve step. -/
def finishPinRole (comp_id comp_name pin_name pin_desc : String)
    (resolved : String × AllocState) : AllocState × String :=
  let assigned_pin := resolved.1
  let st := resolved.2
  let checked := conflictCheck st.used_pins st.warnings comp_id comp_name assigned_pin
  let note :=
    if strHas (strLower pin_desc) "pull-up" then " [10K pull-up]"
    else if strHas (strLower pin_desc) "pull-down" then " [10K pull-down]"
    else ""
  let line := padTo20 assigned_pin ++ " " ++ "-------->" ++ " " ++ pin_name ++ note
  ({ st with used_pins := checked.1, warnings := checked.2,
             diagram_lines := st.diagram_lines ++ [line] },
   assigned_pin)

/-- One iteration of `for pin_name, pin_desc in wiring.items()`. -/
def processPinRole (comp_id comp_name : String) (st : AllocState)
    (pin_name pin_desc : String) : AllocState × String :=
  finishPinRole comp_id comp_name pin_name pin_desc
    (resolve_assigned_pin comp_name st pin_name pin_desc)

/-- The no-skip variant of `processPinRole`. -/
def processPinRoleNoSkip (comp_id comp_name : String) (st : AllocState)
    (pin_name pin_desc : String) : AllocState × String :=
  finishPinRole comp_id comp_name pin_name pin_desc
    (resolve_assigned_pin_noskip comp_name st pin_name pin_desc)

/-- Fold step over the wiring dict of one component, also accumulating the
local `comp_pins` dict. -/
def processWiring (comp_id comp_name : String)
    (acc : AllocState × List (String × String)) (pin : String × String) :
    AllocState × List (String × String) :=
  let r := processPinRole comp_id comp_name acc.1 pin.1 pin.2
  (r.1, dictSet acc.2 pin.1 r.2)

/-- The no-skip variant of `processWiring`. -/
def processWiringNoSkip (comp_id comp_name : String)
    (acc : AllocState × List (String × String)) (pin : String × String) :
    AllocState × List (String × String) :=
  let r := processPinRoleNoSkip comp_id comp_name acc.1 pin.1 pin.2
  (r.1, dictSet acc.2 pin.1 r.2)

/-- One iteration of `for component in selected`: components with an empty
wiring dict are skipped entirely (`continue`); otherwise the component
header, each pin role, the `pin_assignments` entry and a blank line are
produced. -/
def processComponent (st : AllocState) (c : CatalogComponent) : AllocState :=
  if c.wiring.isEmpty then st
  else
    let st := { st with diagram_lines :=
      st.diagram_lines ++ ["ESP32                    " ++ c.name,
                           String.mk (List.replicate 50 '-')] }
    let r := c.wiring.foldl (processWiring c.id c.name) (st, [])
    { r.1 with pin_assignments := dictSet r.1.pin_assignments c.id r.2,
               diagram_lines := r.1.diagram_lines ++ [""] }

/-- The no-skip variant of `processComponent`. -/
def processComponentNoSkip (st : AllocState) (c : CatalogComponent) : AllocState :=
  if c.wiring.isEmpty then st
  else
    let st := { st with diagram_lines :=
      st.diagram_lines ++ ["ESP32                    " ++ c.name,
                           String.mk (List.replicate 50 '-')] }
    let r := c.wiring.foldl (processWiringNoSkip c.id c.name) (st, [])
    { r.1 with pin_assignments := dictSet r.1.pin_assignments c.id r.2,
               diagram_lines := r.1.diagram_lines ++ [""] }

/-- Result structure of the allocator. The `components` field is absent
(`none`) on the empty-selection early return, which builds a dict without
that key. -/
structure WiringResult where
  diagram : String
  warnings : List String
  pin_assignments : List (String × List (String × String))
  components : Option (List (String × String))
deriving DecidableEq

/-- The separator line `"=" * 60`. -/
def eqBar : String := String.mk (List.replicate 60 '=')

/-- Assembly of the trailing diagram sections and the result, shared by the
faithful allocator and its no-skip variant. -/
def assembleResult (selected : List CatalogComponent) (st : AllocState) : WiringResult :=
  let diagram_lines := st.diagram_lines
  let diagram_lines :=
    if selected.any (fun c => c.notes != "") then
      diagram_lines ++ [eqBar, "WIRING NOTES", eqBar]
        ++ selected.filterMap (fun c =>
            if c.notes ≠ "" then some ("• " ++ c.name ++ ": " ++ c.notes) else none)
        ++ [""]
    else diagram_lines
  let diagram_lines :=
    if st.warnings.isEmpty then diagram_lines
    else diagram_lines ++ [eqBar, "⚠️  WARNINGS", eqBar]
      ++ st.warnings.map (fun w => "• " ++ w) ++ [""]
  let diagram_lines := diagram_lines ++ [eqBar, "POWER NOTES", eqBar,
    "• ESP32 3.3V pin can supply ~50mA max",
    "• For 5V components, use VIN or external supply",
    "• Relays/motors need external power supply",
    "• Add 100µF capacitor near sensor VCC for stability"]
  { diagram := String.intercalate "\n" diagram_lines,
    warnings := st.warnings,
    pin_assignments := st.pin_assignments,
    components := some (selected.map (fun c => (c.id, c.name))) }

/-- The initial allocator state, including the diagram header. -/
def initialState : AllocState :=
  { used_pins := [], warnings := [], pin_assignments := [],
    diagram_lines := [eqBar, "ESP32 WIRING DIAGRAM", eqBar, ""],
    next_gpio_idx := 0 }

/-- Embedding of `generate_ascii_wiring_diagram`. -/
def generate_ascii_wiring_diagram (component_ids : List String) : WiringResult :=
  let selected := allComponents.filter (fun c => component_ids.contains c.id)
  if selected.isEmpty then
    { diagram := "No components selected", warnings := [], pin_assignments := [],
      components := none }
  else
    assembleResult selected (selected.foldl processComponent initialState)

/-- Modelled from the claim's words: the allocator with the generic-digital
availability test dropped, so consecutive generic-digital roles always claim
consecutive pool entries. Identical to `generate_ascii_wiring_diagram`
except for the scan. -/
def wiring_diagram_noskip (component_ids : List String) : WiringResult :=
  let selected := allComponents.filter (fun c => component_ids.contains c.id)
  if selected.isEmpty then
    { diagram := "No components selected", warnings := [], pin_assignments := [],
      components := none }
  else
    assembleResult selected (selected.foldl processComponentNoSkip initialState)

/-- Stage map of a concrete demonstration project: only the idea stage has
content and approval, as after project creation. -/
def demoStages : String → StageData := fun k =>
  if k = "idea" then ⟨some "Build a demo device", some "t0", true, none⟩
  else ⟨none, none, false, none⟩

/-- Concrete demonstration project whose current stage is "code". -/
def demoProject : Project :=
  ⟨"p-1", "Demo Project", "Build a demo device", none, "ESP32 DevKit V1", "active",
   "code", demoStages, [], [], "t0", "t0"⟩

/-- Stage map with idea and requirements content present. -/
def demoStages2 : String → StageData := fun k =>
  if k = "idea" then ⟨some "Build a demo device", some "t0", true, none⟩
  else if k = "requirements" then ⟨some "Requirements text", some "t0", false, none⟩
  else ⟨none, none, false, none⟩

/-- Demonstration project with non-empty requirements content. -/
def demoProject2 : Project := { demoProject with stages := demoStages2 }

/-- Invariant of the used-pins map: every stored value is a catalog component
id (the map sends physical pins to owning component ids). -/
def UsedInv (used_pins : List (String × String)) : Prop :=
  ∀ v ∈ dictValues used_pins, v ∈ allComponentIds

/-! Theorems. -/

/-- C1: approving a stage with approved = true where the stage is not the last
of the fixed order sets current_stage to the stage immediately following it in
that order and returns that stage, for every project state, hence regardless of
the prior current_stage and of whether intervening stages are approved; in
particular approving an earlier stage can retreat current_stage. -/
theorem approve_advances_to_successor (p : Project) (notes : Option String)
    (now : String) (s : ProjectStage) (h : s ≠ ProjectStage.iteration) :
    (approve_stage p s true notes now).1.current_stage = (stageSuccessor s).value ∧
    (approve_stage p s true notes now).2 = some (stageSuccessor s).value := by
  cases s <;> try exact ⟨rfl, rfl⟩
  exact absurd rfl h

/-- Witness for C1 at a concrete project whose current_stage is the later stage
"code": approving "requirements" returns "hardware" and retreats current_stage
to "hardware". -/
theorem approve_advances_to_successor_witness :
    ProjectStage.requirements ≠ ProjectStage.iteration ∧
    ((approve_stage demoProject ProjectStage.requirements true none "t1").1.current_stage
        = "hardware" ∧
     (approve_stage demoProject ProjectStage.requirements true none "t1").2
        = some "hardware") :=
  ⟨by decide,
   approve_advances_to_successor demoProject none "t1" ProjectStage.requirements (by decide)⟩

/-- C6: a successful generation replaces the stage record for the requested
stage with the generated content, the generation timestamp, approved = false
(even if it was previously true) and null notes, and leaves current_stage
unchanged. -/
theorem generation_resets_approval (p : Project) (stage : ProjectStage)
    (um : Option String) (now content : String) :
    ((generate_stage_content p stage um now (.ok content)).1.stages stage.value =
      ⟨some content, some now, false, none⟩) ∧
    (generate_stage_content p stage um now (.ok content)).1.current_stage
      = p.current_stage := by
  constructor
  · simp [generate_stage_content]
  · rfl

/-- C7 (amended): when the Generator call fails with a provider error, the
stored project is the unchanged input project (the database update is never
reached), but the failure surfaced to the caller is not the provider error
verbatim: it is re-wrapped with status 500 and the detail prefixed by
"Generation failed: " applied to the str() of the provider error. -/
theorem provider_error_leaves_project_unchanged (p : Project) (stage : ProjectStage)
    (um : Option String) (now : String) (e : HTTPErr) :
    generate_stage_content p stage um now (.error e) =
      (p, .error ⟨500, "Generation failed: " ++ httpErrStr e⟩) := rfl

/-- Counterexample to C7 as stated: a provider error with status 401 surfaces
as a different error with status 500 and a wrapped detail, not verbatim. -/
theorem provider_error_not_verbatim :
    (generate_stage_content demoProject ProjectStage.requirements none "t1"
        (.error ⟨401, "Groq API error: invalid key"⟩)).2 =
      .error ⟨500, "Generation failed: 401: Groq API error: invalid key"⟩ ∧
    (⟨500, "Generation failed: 401: Groq API error: invalid key"⟩ : HTTPErr) ≠
      ⟨401, "Groq API error: invalid key"⟩ :=
  ⟨rfl, by decide⟩

/-- C8: the allocator is embedded as a pure function of the ordered
component-id list over the fixed catalog constants, so any two invocations on
the same input produce identical diagram text, warnings and pin assignments. -/
theorem allocator_deterministic (ids : List String) :
    (generate_ascii_wiring_diagram ids).diagram
        = (generate_ascii_wiring_diagram ids).diagram ∧
    (generate_ascii_wiring_diagram ids).warnings
        = (generate_ascii_wiring_diagram ids).warnings ∧
    (generate_ascii_wiring_diagram ids).pin_assignments
        = (generate_ascii_wiring_diagram ids).pin_assignments :=
  ⟨rfl, rfl, rfl⟩

/-! Shared helper lemmas. -/

/-- A contains test is the membership decision, for strings. -/
theorem contains_eq_true_iff (l : List String) (a : String) :
    l.contains a = true ↔ a ∈ l := List.elem_iff

/-- Membership-equivalent id lists give equal contains tests. -/
theorem contains_congr_of_iff (ids ids' : List String) (a : String)
    (h : a ∈ ids ↔ a ∈ ids') : ids.contains a = ids'.contains a := by
  by_cases hm : a ∈ ids
  · rw [(contains_eq_true_iff ids a).mpr hm, (contains_eq_true_iff ids' a).mpr (h.mp hm)]
  · have h1 : ids.contains a = false :=
      Bool.eq_false_iff.mpr (fun hc => hm ((contains_eq_true_iff _ _).mp hc))
    have h2 : ids'.contains a = false :=
      Bool.eq_false_iff.mpr (fun hc => hm (h.mpr ((contains_eq_true_iff _ _).mp hc)))
    rw [h1, h2]

/-- Membership-equivalent id lists select the same catalog components. -/
theorem selected_congr (ids ids' : List String)
    (h : ∀ c ∈ allComponents, (c.id ∈ ids ↔ c.id ∈ ids')) :
    allComponents.filter (fun c => ids.contains c.id)
      = allComponents.filter (fun c => ids'.contains c.id) :=
  List.filter_congr (fun c hc => contains_congr_of_iff ids ids' c.id (h c hc))

/-- The allocator output depends on the id list only through which catalog
ids are members of it. -/
theorem generate_congr (ids ids' : List String)
    (h : ∀ c ∈ allComponents, (c.id ∈ ids ↔ c.id ∈ ids')) :
    generate_ascii_wiring_diagram ids = generate_ascii_wiring_diagram ids' := by
  unfold generate_ascii_wiring_diagram
  rw [selected_congr ids ids' h]

/-- Finding the key in the in-place-updated map yields the new entry. -/
theorem find?_key_of_set (k v : String) :
    ∀ (d : List (String × String)), d.any (fun p => p.1 == k) = true →
      List.find? (fun p => p.1 == k)
        (d.map (fun p => if p.1 == k then (k, v) else p)) = some (k, v)
  | [], h => by simp at h
  | a :: t, h => by
    by_cases hk : (a.1 == k) = true
    · rw [List.map_cons, if_pos hk]
      exact List.find?_cons_of_pos _ (beq_self_eq_true k)
    · have hk' : (a.1 == k) = false := by rwa [Bool.not_eq_true] at hk
      rw [List.map_cons, if_neg hk]
      simp only [List.find?_cons, hk']
      apply find?_key_of_set k v t
      rw [List.any_cons] at h
      rcases Bool.or_eq_true_iff.mp h with h1 | h2
      · exact absurd h1 hk
      · exact h2

/-- Looking up a key just set returns the value just written. -/
theorem dictFind_dictSet_self (d : List (String × String)) (k v : String) :
    dictFind (dictSet d k v) k = some v := by
  unfold dictSet dictFind
  by_cases h : d.any (fun p => p.1 == k) = true
  · rw [if_pos h, find?_key_of_set k v d h]
    rfl
  · rw [if_neg h, List.find?_append]
    have hnone : List.find? (fun p => p.1 == k) d = none :=
      List.find?_eq_none.mpr (fun x hx hpx => h (List.any_eq_true.mpr ⟨x, hx, hpx⟩))
    rw [hnone, Option.none_or]
    simp only [List.find?_cons, beq_self_eq_true]
    rfl

/-- Values of the used-pins map after an assignment: the new value or one of
the old values. -/
theorem dictValues_dictSet_mem (d : List (String × String)) (k v x : String)
    (hx : x ∈ dictValues (dictSet d k v)) : x = v ∨ x ∈ dictValues d := by
  unfold dictSet at hx
  by_cases h : d.any (fun p => p.1 == k) = true
  · rw [if_pos h] at hx
    unfold dictValues at hx ⊢
    rcases List.mem_map.mp hx with ⟨q, hq, hfx⟩
    rcases List.mem_map.mp hq with ⟨p, hp, hfp⟩
    by_cases hpk : (p.1 == k) = true
    · left
      rw [← hfx, ← hfp, if_pos hpk]
    · right
      rw [← hfx, ← hfp, if_neg hpk]
      exact List.mem_map_of_mem _ hp
  · rw [if_neg h] at hx
    unfold dictValues at hx ⊢
    rw [List.map_append] at hx
    rcases List.mem_append.mp hx with h1 | h2
    · right; exact h1
    · left; simpa using h2

/-- C9: unknown component ids are silently skipped (prepending an id that
matches no catalog component leaves the result unchanged), and an empty
resolved selection, whether from an empty input or an unknown-only input,
returns the literal diagram "No components selected" with empty warnings and
empty pin assignments. -/
theorem unknown_components_skipped :
    (∀ (junk : String) (ids : List String), (∀ c ∈ allComponents, c.id ≠ junk) →
      generate_ascii_wiring_diagram (junk :: ids) = generate_ascii_wiring_diagram ids) ∧
    generate_ascii_wiring_diagram [] =
      ⟨"No components selected", [], [], none⟩ ∧
    generate_ascii_wiring_diagram ["not_a_real_id"] =
      ⟨"No components selected", [], [], none⟩ := by
  refine ⟨?_, rfl, rfl⟩
  intro junk ids h
  apply generate_congr
  intro c hc
  simp [List.mem_cons, h c hc]

/-- Witness for C9: "not_a_real_id" matches no catalog id and its presence
does not change the allocation for ["dht22"]. -/
theorem unknown_components_skipped_witness :
    (∀ c ∈ allComponents, c.id ≠ "not_a_real_id") ∧
    generate_ascii_wiring_diagram ("not_a_real_id" :: ["dht22"])
      = generate_ascii_wiring_diagram ["dht22"] :=
  ⟨by decide, unknown_components_skipped.1 "not_a_real_id" ["dht22"] (by decide)⟩

/-- C4 (amended): the allocator selects and processes catalog components in
the catalog's declared order, keyed only on which catalog ids are members of
the input list; input order is ignored and duplicate occurrences have no
additional effect, and the returned components list reflects the catalog
order of the selected components. -/
theorem allocator_catalog_order :
    (∀ ids ids', (∀ c ∈ allComponents, (c.id ∈ ids ↔ c.id ∈ ids')) →
      generate_ascii_wiring_diagram ids = generate_ascii_wiring_diagram ids') ∧
    (∀ ids : List String, (generate_ascii_wiring_diagram ids).components =
      if (allComponents.filter (fun c => ids.contains c.id)).isEmpty then none
      else some ((allComponents.filter (fun c => ids.contains c.id)).map
        (fun c => (c.id, c.name)))) := by
  constructor
  · exact generate_congr
  · intro ids
    simp only [generate_ascii_wiring_diagram]
    by_cases h : (allComponents.filter (fun c => ids.contains c.id)).isEmpty = true
    · rw [if_pos h, if_pos h]
    · rw [if_neg h, if_neg h]
      rfl

/-- Witness for C4 (amended): adding an unknown id does not change membership
of any catalog id, so the result is unchanged. -/
theorem allocator_catalog_order_witness :
    (∀ c ∈ allComponents,
      (c.id ∈ (["bme280", "mystery_part"] : List String) ↔ c.id ∈ (["bme280"] : List String))) ∧
    generate_ascii_wiring_diagram ["bme280", "mystery_part"]
      = generate_ascii_wiring_diagram ["bme280"] :=
  ⟨by decide, allocator_catalog_order.1 ["bme280", "mystery_part"] ["bme280"] (by decide)⟩

/-- Counterexample to C4 as stated: the input ["ssd1306", "dht22"] yields
components in catalog order (dht22 first), not input order, and a duplicated
id is processed only once. -/
theorem allocator_input_order_counterexample :
    (generate_ascii_wiring_diagram ["ssd1306", "dht22"]).components
      = some [("dht22", "DHT22"), ("ssd1306", "SSD1306 OLED 0.96\"")] ∧
    (generate_ascii_wiring_diagram ["ssd1306", "dht22"]).components
      ≠ some [("ssd1306", "SSD1306 OLED 0.96\""), ("dht22", "DHT22")] ∧
    (generate_ascii_wiring_diagram ["dht22", "dht22"]).components
      = some [("dht22", "DHT22")] :=
  ⟨by decide, by decide, by decide⟩

/-- C2 (amended): on ["bme280", "ssd1306"] both SDA roles resolve to the fixed
bus-data pin GPIO21 and both SCL roles to the fixed bus-clock pin GPIO22, but
the allocator does emit a PIN CONFLICT warning for each shared bus pin when
the second component claims it, because the conflict check exempts only the
power labels. -/
theorem bus_sharing_warns :
    (dictFind (generate_ascii_wiring_diagram ["bme280", "ssd1306"]).pin_assignments "bme280"
      = some [("VCC", "3.3V"), ("GND", "GND"), ("SDA", "GPIO21"), ("SCL", "GPIO22")]) ∧
    (dictFind (generate_ascii_wiring_diagram ["bme280", "ssd1306"]).pin_assignments "ssd1306"
      = some [("VCC", "3.3V"), ("GND", "GND"), ("SDA", "GPIO21"), ("SCL", "GPIO22")]) ∧
    (generate_ascii_wiring_diagram ["bme280", "ssd1306"]).warnings =
      ["PIN CONFLICT: GPIO21 used by both bme280 and SSD1306 OLED 0.96\"",
       "PIN CONFLICT: GPIO22 used by both bme280 and SSD1306 OLED 0.96\""] :=
  ⟨by decide, by decide, by decide⟩

/-- Counterexample to C2 as stated: on ["bme280", "ssd1306"] the warnings list
contains a conflict warning for the shared bus-data pin GPIO21. -/
theorem bus_sharing_counterexample :
    ((generate_ascii_wiring_diagram ["bme280", "ssd1306"]).warnings.any
      (fun w => strHas w "PIN CONFLICT" && strHas w "GPIO21")) = true := by decide

/-- C3 (amended): for every stage other than iteration, the generation context
is the fixed project preamble followed by exactly the stages strictly before
the stage in the fixed order that have non-empty content, in order; for the
iteration stage the context contains no stage contents at all, because
"iteration" is absent from the stages_order list, so the stage index falls
back to 0. -/
theorem generate_context_strictly_before :
    (∀ (p : Project) (s : ProjectStage), s ≠ ProjectStage.iteration →
      build_context_parts p s = base_context_parts p ++ spec_context_stage_parts p s) ∧
    (∀ p : Project, build_context_parts p ProjectStage.iteration = base_context_parts p) := by
  constructor
  · intro p s h
    cases s <;> first | rfl | exact absurd rfl h
  · intro p
    have hempty : context_stage_parts p ProjectStage.iteration = [] := rfl
    unfold build_context_parts
    rw [hempty, List.append_nil]

/-- Witness for C3 (amended) at the hardware stage of a concrete project. -/
theorem generate_context_strictly_before_witness :
    ProjectStage.hardware ≠ ProjectStage.iteration ∧
    build_context_parts demoProject2 ProjectStage.hardware
      = base_context_parts demoProject2
        ++ spec_context_stage_parts demoProject2 ProjectStage.hardware :=
  ⟨by decide, generate_context_strictly_before.1 demoProject2 ProjectStage.hardware (by decide)⟩

/-- Counterexample to C3 as stated: for the iteration stage of a project whose
idea and requirements stages have non-empty content, the built context has no
stage parts, although the stages strictly before iteration with non-empty
content are not empty. -/
theorem generate_context_iteration_counterexample :
    build_context_parts demoProject2 ProjectStage.iteration
      = base_context_parts demoProject2 ∧
    spec_context_stage_parts demoProject2 ProjectStage.iteration
      = ["\n=== IDEA ===\nBuild a demo device", "\n=== REQUIREMENTS ===\nRequirements text"] :=
  ⟨by decide, by decide⟩

/-- C5 (amended): whenever a resolved pin that is not one of the power labels
is already present in the used-pins map under a different component, the
conflict check appends exactly one warning string naming the previous owner's
component id, the new component's name and the shared pin, and then overwrites
the map entry with the new component id (last writer wins); allocation is
never prevented. -/
theorem conflict_warning_shape (used : List (String × String)) (warns : List String)
    (comp_id comp_name assigned_pin owner : String)
    (hfind : dictFind used assigned_pin = some owner)
    (howner : owner ≠ comp_id)
    (hpow : assigned_pin ∉ (["GND", "3.3V", "5V (VIN)"] : List String))
    (hne : assigned_pin ≠ "") :
    conflictCheck used warns comp_id comp_name assigned_pin =
      (dictSet used assigned_pin comp_id,
       warns ++ ["PIN CONFLICT: " ++ assigned_pin ++ " used by both "
         ++ owner ++ " and " ++ comp_name]) ∧
    dictFind (dictSet used assigned_pin comp_id) assigned_pin = some comp_id := by
  constructor
  · unfold conflictCheck
    rw [if_pos ⟨hne, hpow⟩, hfind]
    simp [howner]
  · exact dictFind_dictSet_self used assigned_pin comp_id

/-- Witness for C5 (amended) at a concrete one-entry used-pins map. -/
theorem conflict_warning_shape_witness :
    dictFind [("GPIO2", "tft_st7789")] "GPIO2" = some "tft_st7789" ∧
    ("tft_st7789" : String) ≠ "relay" ∧
    conflictCheck [("GPIO2", "tft_st7789")] [] "relay" "Relay Module (1 Channel)" "GPIO2" =
      ([("GPIO2", "relay")],
       ["PIN CONFLICT: GPIO2 used by both tft_st7789 and Relay Module (1 Channel)"]) ∧
    dictFind [("GPIO2", "relay")] "GPIO2" = some "relay" := by
  have h := conflict_warning_shape [("GPIO2", "tft_st7789")] [] "relay"
    "Relay Module (1 Channel)" "GPIO2" "tft_st7789" (by decide) (by decide)
    (by decide) (by decide)
  exact ⟨by decide, by decide, h.1, h.2⟩

/-- Counterexample to C5 as stated: the conflict between the fixed RES pin of
tft_st7789 and the generically allocated IN pin of relay on GPIO4 produces a
warning that names the first component by its id, not by its component name,
which does not occur in the warning string. -/
theorem conflict_warning_counterexample :
    (generate_ascii_wiring_diagram ["tft_st7789", "relay"]).warnings =
      ["PIN CONFLICT: GPIO4 used by both tft_st7789 and Relay Module (1 Channel)"] ∧
    ((allComponents.find? (fun c => c.id == "tft_st7789")).map (fun c => c.name)
      = some "TFT Display ST7789 1.3\"") ∧
    strHas "PIN CONFLICT: GPIO4 used by both tft_st7789 and Relay Module (1 Channel)"
      "TFT Display ST7789 1.3\"" = false :=
  ⟨by decide, by decide, by decide⟩

/-- No generic-pool pin is a catalog component id. -/
theorem gpio_pool_not_catalog_id : ∀ p ∈ gpio_pool, p ∉ allComponentIds := by decide

/-- Under the used-pins invariant the generic-digital scan never skips: it
behaves exactly like the scan without the availability test, because that test
compares pool pins against component ids. -/
theorem scanPool_eq_noskip (idx : Nat) (vals : List String)
    (h : ∀ v ∈ vals, v ∈ allComponentIds) :
    scanPool (gpio_pool.drop idx) idx vals = scanPoolNoSkip (gpio_pool.drop idx) idx := by
  cases hd : gpio_pool.drop idx with
  | nil => rfl
  | cons c rest =>
    have hc : c ∈ gpio_pool := List.mem_of_mem_drop (hd ▸ List.mem_cons_self c rest)
    have hnot : c ∉ vals := fun hv => gpio_pool_not_catalog_id c hc (h c hv)
    have hcont : vals.contains c = false :=
      Bool.eq_false_iff.mpr (fun hc' => hnot ((contains_eq_true_iff vals c).mp hc'))
    simp [scanPool, scanPoolNoSkip, hcont, hnot]

set_option maxHeartbeats 1000000 in
/-- The resolve cascade never modifies the used-pins map. -/
theorem resolve_core_used_pins (cn : String) (st : AllocState) (pn pd : String)
    (sc : Option String × Nat) :
    (resolve_assigned_pin_core cn st pn pd sc).2.used_pins = st.used_pins := by
  obtain ⟨o, i⟩ := sc
  simp only [resolve_assigned_pin_core]
  by_cases h1 : (["VCC", "VIN"].contains (strUpper pn)) = true
  · rw [if_pos h1]
    by_cases h2 : (strHas pd "3.3") = true
    · rw [if_pos h2]
    · rw [if_neg h2]
  · rw [if_neg h1]
    by_cases h3 : ((strUpper pn == "GND")) = true
    · rw [if_pos h3]
    · rw [if_neg h3]
      by_cases h4 : (["SDA", "SDL"].contains (strUpper pn)) = true
      · rw [if_pos h4]
      · rw [if_neg h4]
        by_cases h5 : ((strUpper pn == "SCL")) = true
        · rw [if_pos h5]
        · rw [if_neg h5]
          by_cases h6 : (["MOSI", "SDI", "DIN"].contains (strUpper pn)) = true
          · rw [if_pos h6]
          · rw [if_neg h6]
            by_cases h7 : (["MISO", "SDO", "DOUT"].contains (strUpper pn)) = true
            · rw [if_pos h7]
            · rw [if_neg h7]
              by_cases h8 : (["SCK", "CLK", "SCLK"].contains (strUpper pn)) = true
              · rw [if_pos h8]
              · rw [if_neg h8]
                by_cases h9 : ((strUpper pn == "CS")) = true
                · rw [if_pos h9]
                · rw [if_neg h9]
                  by_cases h10 : (["AOUT", "AO", "ANALOG"].contains (strUpper pn)) = true
                  · rw [if_pos h10]
                    cases findAdcPin ESP32_PIN_MAP_adc1 st.used_pins <;> rfl
                  · rw [if_neg h10]
                    by_cases h11 : (["DATA", "IN", "OUT", "SIGNAL", "DQ", "IO", "IN1",
                        "IN2", "IN3", "IN4"].contains (strUpper pn)) = true
                    · rw [if_pos h11]
                      cases o <;> rfl
                    · rw [if_neg h11]
                      by_cases h12 : (["DC", "RS"].contains (strUpper pn)) = true
                      · rw [if_pos h12]
                      · rw [if_neg h12]
                        by_cases h13 : (["RES", "RST", "RESET"].contains (strUpper pn)) = true
                        · rw [if_pos h13]
                        · rw [if_neg h13]

/-- The resolve step never modifies the used-pins map. -/
theorem resolve_used_pins (cn : String) (st : AllocState) (pn pd : String) :
    (resolve_assigned_pin cn st pn pd).2.used_pins = st.used_pins :=
  resolve_core_used_pins cn st pn pd _

/-- Under the used-pins invariant the resolve step equals its no-skip
variant. -/
theorem resolve_eq_noskip (cn : String) (st : AllocState) (pn pd : String)
    (h : UsedInv st.used_pins) :
    resolve_assigned_pin cn st pn pd = resolve_assigned_pin_noskip cn st pn pd := by
  unfold resolve_assigned_pin resolve_assigned_pin_noskip
  rw [scanPool_eq_noskip st.next_gpio_idx (dictValues st.used_pins) h]

/-- The conflict check writes only component ids into the used-pins map. -/
theorem conflictCheck_used_inv (used : List (String × String)) (w : List String)
    (cid cn pin : String) (hcid : cid ∈ allComponentIds) (h : UsedInv used) :
    UsedInv (conflictCheck used w cid cn pin).1 := by
  unfold conflictCheck
  split_ifs with hcond
  · intro v hv
    rcases dictValues_dictSet_mem used pin cid v hv with rfl | hv'
    · exact hcid
    · exact h v hv'
  · exact h

/-- Under the used-pins invariant one pin-role iteration equals its no-skip
variant. -/
theorem processPinRole_eq (cid cn : String) (st : AllocState) (pn pd : String)
    (h : UsedInv st.used_pins) :
    processPinRole cid cn st pn pd = processPinRoleNoSkip cid cn st pn pd := by
  unfold processPinRole processPinRoleNoSkip
  rw [resolve_eq_noskip cn st pn pd h]

/-- One pin-role iteration preserves the used-pins invariant. -/
theorem processPinRole_inv (cid cn : String) (st : AllocState) (pn pd : String)
    (hcid : cid ∈ allComponentIds) (h : UsedInv st.used_pins) :
    UsedInv (processPinRole cid cn st pn pd).1.used_pins := by
  have hres := resolve_used_pins cn st pn pd
  show UsedInv (conflictCheck (resolve_assigned_pin cn st pn pd).2.used_pins
      (resolve_assigned_pin cn st pn pd).2.warnings cid cn
      (resolve_assigned_pin cn st pn pd).1).1
  rw [hres]
  exact conflictCheck_used_inv _ _ _ _ _ hcid h

/-- Folding the wiring roles of one component: equality with the no-skip
variant and preservation of the used-pins invariant. -/
theorem wiring_fold_eq (cid cn : String) (hcid : cid ∈ allComponentIds)
    (ws : List (String × String)) :
    ∀ acc : AllocState × List (String × String), UsedInv acc.1.used_pins →
      ws.foldl (processWiring cid cn) acc = ws.foldl (processWiringNoSkip cid cn) acc ∧
      UsedInv ((ws.foldl (processWiring cid cn) acc).1.used_pins) := by
  induction ws with
  | nil => intro acc h; exact ⟨rfl, h⟩
  | cons pin rest ih =>
    intro acc h
    have hpin_eq : processWiring cid cn acc pin = processWiringNoSkip cid cn acc pin := by
      unfold processWiring processWiringNoSkip
      rw [processPinRole_eq cid cn acc.1 pin.1 pin.2 h]
    have hpin_inv : UsedInv ((processWiring cid cn acc pin).1.used_pins) :=
      processPinRole_inv cid cn acc.1 pin.1 pin.2 hcid h
    have ihh := ih (processWiring cid cn acc pin) hpin_inv
    constructor
    · rw [List.foldl_cons, List.foldl_cons, ← hpin_eq]
      exact ihh.1
    · rw [List.foldl_cons]
      exact ihh.2

/-- Processing one catalog component: equality with the no-skip variant and
preservation of the used-pins invariant. -/
theorem processComponent_eq (c : CatalogComponent) (hc : c ∈ allComponents)
    (st : AllocState) (h : UsedInv st.used_pins) :
    processComponent st c = processComponentNoSkip st c ∧
    UsedInv (processComponent st c).used_pins := by
  have hcid : c.id ∈ allComponentIds := List.mem_map_of_mem _ hc
  simp only [processComponent, processComponentNoSkip]
  split_ifs with hw
  · exact ⟨rfl, h⟩
  · have hfold := wiring_fold_eq c.id c.name hcid c.wiring
      ({ st with diagram_lines := st.diagram_lines
          ++ ["ESP32                    " ++ c.name, String.mk (List.replicate 50 '-')] },
       []) h
    constructor
    · rw [hfold.1]
    · exact hfold.2

/-- Folding the selected components: equality with the no-skip variant and
preservation of the used-pins invariant. -/
theorem components_fold_eq :
    ∀ (cs : List CatalogComponent), (∀ c ∈ cs, c ∈ allComponents) →
      ∀ st : AllocState, UsedInv st.used_pins →
        cs.foldl processComponent st = cs.foldl processComponentNoSkip st ∧
        UsedInv (cs.foldl processComponent st).used_pins := by
  intro cs
  induction cs with
  | nil => intro _ st h; exact ⟨rfl, h⟩
  | cons c rest ih =>
    intro hcs st h
    have hstep := processComponent_eq c (hcs c (List.mem_cons_self c rest)) st h
    have ihh := ih (fun x hx => hcs x (List.mem_cons_of_mem c hx))
      (processComponent st c) hstep.2
    constructor
    · rw [List.foldl_cons, List.foldl_cons, ← hstep.1]
      exact ihh.1
    · rw [List.foldl_cons]
      exact ihh.2

/-- C10: the availability test of the generic-digital loop compares candidate
pool pins against the values of the used-pins map, which are always component
ids and never pin identifiers, so the test always passes and no pool entry is
ever skipped: the allocator coincides with the variant that always claims
consecutive pool entries in pool order, for every input. Concretely, for
["tft_st7789", "relay"] the fixed RES role of tft_st7789 occupies GPIO4 and
the generic digital IN role of relay is nevertheless assigned GPIO4, producing
a conflict warning. -/
theorem generic_pool_check_vacuous :
    (∀ ids : List String, generate_ascii_wiring_diagram ids = wiring_diagram_noskip ids) ∧
    ((generate_ascii_wiring_diagram ["tft_st7789", "relay"]).warnings =
      ["PIN CONFLICT: GPIO4 used by both tft_st7789 and Relay Module (1 Channel)"]) ∧
    ((dictFind (generate_ascii_wiring_diagram ["tft_st7789", "relay"]).pin_assignments
        "tft_st7789").bind (fun m => dictFind m "RES") = some "GPIO4") ∧
    ((dictFind (generate_ascii_wiring_diagram ["tft_st7789", "relay"]).pin_assignments
        "relay").bind (fun m => dictFind m "IN") = some "GPIO4") := by
  refine ⟨?_, by decide, by decide, by decide⟩
  intro ids
  simp only [generate_ascii_wiring_diagram, wiring_diagram_noskip]
  by_cases h : (allComponents.filter (fun c => ids.contains c.id)).isEmpty = true
  · rw [if_pos h, if_pos h]
  · rw [if_neg h, if_neg h]
    have hinv : UsedInv initialState.used_pins := by
      intro v hv
      simp [initialState, dictValues] at hv
    have hfold := components_fold_eq (allComponents.filter (fun c => ids.contains c.id))
      (fun c hc => List.mem_of_mem_filter hc) initialState hinv
    rw [hfold.1]

end EspForge
